import Mathlib

/-!
Shallow embedding of the attendance core of the vcheckduty backend:
the Haversine distance function and the check-in / check-out / approval
route handlers (src/app/api/checkin/route.ts, src/app/api/checkout/route.ts,
src/app/api/attendance/approve/route.ts) over the Attendance data model
(src/models/Attendance.ts).

Modelling conventions:
* MongoDB ObjectIds are `Nat`; timestamps are `Int` (milliseconds since epoch).
* JavaScript numbers used in geometric computations are real numbers `ℝ`;
  the derived totalHours value (an exact rational of the integer millisecond
  difference) is `ℚ`.  `Math.round` is Mathlib's `round` (both are
  `⌊x + 1/2⌋`).
* The document store is a `DB` structure holding lists of users, offices and
  attendance records; `findById` is `List.find?` on the id, `save` of a loaded
  document is replacement by id.
* Each route handler is a function from the database, the authenticated
  user id, the (already type-validated) request fields and the clock to
  `Except ApiError (DB × response)`; an error response performs no write.
* The local-day window computed by `setHours(0,0,0,0)` / `setHours(23,59,59,999)`
  is passed in as the pair `startOfDay`/`endOfDay` of the environment clock.
-/

namespace VCheck

/-- Workflow status of an approval facet (`'pending' | 'approved' | 'rejected'`). -/
inductive WStatus where
  | pending
  | approved
  | rejected
deriving DecidableEq

/-- Geofence validity flag (`'Valid' | 'Invalid'`). -/
inductive Validity where
  | valid
  | invalid
deriving DecidableEq

/-- User roles (`UserRole` enum in src/models/User.ts). -/
inductive Role where
  | officer
  | supervisor
  | admin
deriving DecidableEq

/-- The approval decision of the approve route (`action`). -/
inductive ApprovalAction where
  | approve
  | reject
deriving DecidableEq

/-- The facet being resolved (`type`: `'checkin' | 'checkout'`). -/
inductive FacetKind where
  | checkin
  | checkout
deriving DecidableEq

/-- A geographic coordinate, JS numbers modelled as reals. -/
structure Coord where
  lat : ℝ
  lng : ℝ

/-- Office document (src/models/Office.ts): geofence centre, radius,
active flag and member list. -/
structure Office where
  id : Nat
  name : String
  location : Coord
  radius : ℝ
  isActive : Bool
  members : List Nat

/-- User document (src/models/User.ts), the fields the attendance core reads. -/
structure User where
  id : Nat
  fullName : String
  role : Role
  officeId : Option Nat
  isActive : Bool

/-- Attendance document (src/models/Attendance.ts). -/
structure AttendanceRecord where
  id : Nat
  user : Nat
  office : Nat
  officerName : String
  officeName : String
  location : Coord
  distance : ℝ
  status : Validity
  checkinStatus : WStatus
  checkinApprovedBy : Option Nat
  checkinApprovedAt : Option Int
  checkinRejectionReason : Option String
  checkinTime : Int
  checkinPhoto : Option String
  checkinReason : Option String
  checkinReasonPhoto : Option String
  checkoutStatus : Option WStatus
  checkoutApprovedBy : Option Nat
  checkoutApprovedAt : Option Int
  checkoutRejectionReason : Option String
  checkoutTime : Option Int
  checkoutLocation : Option Coord
  checkoutDistance : Option ℝ
  checkoutPhoto : Option String
  checkoutReason : Option String
  checkoutReasonPhoto : Option String
  totalHours : Option ℚ

/-- The document store: users, offices and attendance collections, plus a
counter supplying the id of the next created document. -/
structure DB where
  users : List User
  offices : List Office
  attendance : List AttendanceRecord
  nextId : Nat

/-- `User.findById` — look a user up by id. -/
def findUser (db : DB) (uid : Nat) : Option User :=
  db.users.find? (fun u => u.id == uid)

/-- `Office.findById` — look an office up by id. -/
def findOffice (db : DB) (oid : Nat) : Option Office :=
  db.offices.find? (fun o => o.id == oid)

/-- `Attendance.findById` — look an attendance record up by id. -/
def findAttendance (db : DB) (aid : Nat) : Option AttendanceRecord :=
  db.attendance.find? (fun r => r.id == aid)

/-- `attendance.save()` on a loaded document: replace the stored record
that has the same id. -/
def updateAttendance (db : DB) (a : AttendanceRecord) : DB :=
  { db with attendance := db.attendance.map (fun r => if r.id == a.id then a else r) }

/-- Error kinds of the attendance routes, one constructor per distinct
failure response. `alreadyResolved` carries the facet and its current status
because the route interpolates that status into the message. -/
inductive ApiError where
  | userNotFound
  | accountInactive
  | noOfficeAssigned
  | officeNotFound
  | officeInactive
  | notAMember
  | alreadyCheckedInToday
  | noCheckinFound
  | alreadyCheckedOut
  | forbidden
  | attendanceNotFound
  | wrongJurisdiction
  | alreadyResolved (facet : FacetKind) (current : WStatus)
deriving DecidableEq

/-- The wire text of a workflow status. -/
def statusText : WStatus → String
  | .pending => "pending"
  | .approved => "approved"
  | .rejected => "rejected"

/-- The human-readable message of the approve route's `AlreadyResolved`
responses (`Check-in already X` / `Check-out already X`); other errors keep
abstract messages since no claim depends on their text. -/
def ApiError.message : ApiError → String
  | .alreadyResolved .checkin s => "Check-in already " ++ statusText s
  | .alreadyResolved .checkout s => "Check-out already " ++ statusText s
  | _ => ""

/-! ## GeoDistance (`calculateDistance` in the checkin/checkout routes) -/

/-- Degree-to-radian conversion (`toRadians` inside `calculateDistance`). -/
noncomputable def toRadians (degrees : ℝ) : ℝ := degrees * (Real.pi / 180)

/-- JavaScript `Math.atan2(y, x)` over the reals (quadrant-corrected
arctangent). The distance claims only use that it is a function of its two
arguments. -/
noncomputable def atan2 (y x : ℝ) : ℝ :=
  if 0 < x then Real.arctan (y / x)
  else if x < 0 then
    (if 0 ≤ y then Real.arctan (y / x) + Real.pi else Real.arctan (y / x) - Real.pi)
  else
    (if 0 < y then Real.pi / 2 else if y < 0 then -(Real.pi / 2) else 0)

/-- The intermediate Haversine quantity `a` of `calculateDistance`:
`sin²(dLat/2) + cos(lat1)·cos(lat2)·sin²(dLng/2)` with all angles in radians. -/
noncomputable def haversineA (lat1 lng1 lat2 lng2 : ℝ) : ℝ :=
  Real.sin (toRadians (lat2 - lat1) / 2) * Real.sin (toRadians (lat2 - lat1) / 2) +
    Real.cos (toRadians lat1) *
      (Real.cos (toRadians lat2) *
        (Real.sin (toRadians (lng2 - lng1) / 2) * Real.sin (toRadians (lng2 - lng1) / 2)))

/-- `calculateDistance(lat1, lng1, lat2, lng2)`: Haversine great-circle
distance with Earth radius 6371 km, converted to meters and rounded to two
decimal places (`Math.round(distanceMeters * 100) / 100`). -/
noncomputable def calculateDistance (lat1 lng1 lat2 lng2 : ℝ) : ℝ :=
  let a := haversineA lat1 lng1 lat2 lng2
  let c := 2 * atan2 (Real.sqrt a) (Real.sqrt (1 - a))
  let distanceKm := 6371 * c
  let distanceMeters := distanceKm * 1000
  ((round (distanceMeters * 100) : ℤ) : ℝ) / 100

/-! ## AttendanceLedger: check-in (POST /api/checkin) -/

section LedgerOps

open Classical

/-- The day-window duplicate query of the check-in route:
`Attendance.findOne({user, checkinTime: {$gte: startOfDay, $lte: endOfDay}})`.
Note that the query does not mention the office. -/
def existingCheckinToday (db : DB) (uid : Nat) (startOfDay endOfDay : Int) :
    Option AttendanceRecord :=
  db.attendance.find? (fun r =>
    r.user == uid && decide (startOfDay ≤ r.checkinTime) && decide (r.checkinTime ≤ endOfDay))

/-- Insert a record into a list sorted by descending `checkinTime`. -/
def insertByTimeDesc (r : AttendanceRecord) :
    List AttendanceRecord → List AttendanceRecord
  | [] => [r]
  | x :: xs =>
    if decide (r.checkinTime ≤ x.checkinTime) then x :: insertByTimeDesc r xs
    else r :: x :: xs

/-- Sort attendance records by descending `checkinTime`
(`.sort({ checkinTime: -1 })`). -/
def sortByCheckinTimeDesc : List AttendanceRecord → List AttendanceRecord
  | [] => []
  | x :: xs => insertByTimeDesc x (sortByCheckinTimeDesc xs)

/-- The response payload of a successful check-in, the fields claims refer to. -/
structure CheckinData where
  id : Nat
  distance : ℝ
  status : Validity
  checkinStatus : WStatus
  isWithinRange : Bool
  needsReason : Bool

/-- The check-in route handler (POST /api/checkin, authenticated branch).
Guards in source order: user exists, account active, office assignment
present, target office exists and is active, user is a member of the target
office; then the distance and validity are computed, the day-window
duplicate check runs, and the record is created with `checkinStatus`
always `pending`. -/
noncomputable def checkIn (db : DB) (uid officeId : Nat) (lat lng : ℝ)
    (photo : Option String) (now startOfDay endOfDay : Int) :
    Except ApiError (DB × CheckinData) :=
  match findUser db uid with
  | none => .error .userNotFound
  | some user =>
    if !user.isActive then .error .accountInactive
    else match user.officeId with
      | none => .error .noOfficeAssigned
      | some _ =>
        match findOffice db officeId with
        | none => .error .officeNotFound
        | some office =>
          if !office.isActive then .error .officeInactive
          else if !(office.members.contains uid) then .error .notAMember
          else
            let distance := calculateDistance lat lng office.location.lat office.location.lng
            let status : Validity := if distance ≤ office.radius then .valid else .invalid
            match existingCheckinToday db uid startOfDay endOfDay with
            | some _ => .error .alreadyCheckedInToday
            | none =>
              let newRec : AttendanceRecord := {
                id := db.nextId
                user := uid
                office := office.id
                officerName := user.fullName
                officeName := office.name
                location := ⟨lat, lng⟩
                distance := distance
                status := status
                checkinStatus := .pending
                checkinApprovedBy := none
                checkinApprovedAt := none
                checkinRejectionReason := none
                checkinTime := now
                checkinPhoto := photo
                checkinReason := none
                checkinReasonPhoto := none
                checkoutStatus := none
                checkoutApprovedBy := none
                checkoutApprovedAt := none
                checkoutRejectionReason := none
                checkoutTime := none
                checkoutLocation := none
                checkoutDistance := none
                checkoutPhoto := none
                checkoutReason := none
                checkoutReasonPhoto := none
                totalHours := none }
              .ok ({ db with
                       attendance := db.attendance ++ [newRec]
                       nextId := db.nextId + 1 },
                   { id := newRec.id
                     distance := distance
                     status := status
                     checkinStatus := .pending
                     isWithinRange := if distance ≤ office.radius then true else false
                     needsReason := if distance ≤ office.radius then false else true })

/-! ## AttendanceLedger: check-out (POST /api/checkout) -/

/-- The today's-record query of the checkout route:
`Attendance.findOne({user, office, checkinTime within day window})`
with `.sort({ checkinTime: -1 })`, i.e. the most recent matching record. -/
def findTodayAttendance (db : DB) (uid oid : Nat) (startOfDay endOfDay : Int) :
    Option AttendanceRecord :=
  (sortByCheckinTimeDesc (db.attendance.filter (fun r =>
    r.user == uid && r.office == oid &&
      decide (startOfDay ≤ r.checkinTime) && decide (r.checkinTime ≤ endOfDay)))).head?

/-- `totalHours = Math.round((timeDifferenceMs / (1000 * 60 * 60)) * 100) / 100`
as an exact rational of the millisecond timestamps. -/
def totalHoursOf (checkinTime checkoutTime : Int) : ℚ :=
  ((round ((((checkoutTime - checkinTime : Int) : ℚ) / (1000 * 60 * 60)) * 100) : ℤ) : ℚ) / 100

/-- The response payload of a successful checkout, the fields claims refer to. -/
structure CheckoutData where
  attendanceId : Nat
  checkoutTime : Int
  checkoutDistance : ℝ
  checkoutStatus : WStatus
  isWithinRange : Bool
  totalHours : ℚ
  needsReason : Bool

/-- The checkout route handler (POST /api/checkout, authenticated branch).
Guards in source order: user exists, account active, office exists and is
active, a today's record for (user, office) exists, that record has no
checkout timestamp yet; then the checkout facet is written onto the same
record with `checkoutStatus` set to `pending`. -/
noncomputable def checkOut (db : DB) (uid officeId : Nat) (lat lng : ℝ)
    (photo : Option String) (now startOfDay endOfDay : Int) :
    Except ApiError (DB × CheckoutData) :=
  match findUser db uid with
  | none => .error .userNotFound
  | some user =>
    if !user.isActive then .error .accountInactive
    else
      match findOffice db officeId with
      | none => .error .officeNotFound
      | some office =>
        if !office.isActive then .error .officeInactive
        else
          match findTodayAttendance db uid office.id startOfDay endOfDay with
          | none => .error .noCheckinFound
          | some today =>
            match today.checkoutTime with
            | some _ => .error .alreadyCheckedOut
            | none =>
              let checkoutDistance :=
                calculateDistance lat lng office.location.lat office.location.lng
              let totalHours := totalHoursOf today.checkinTime now
              let updated := { today with
                checkoutTime := some now
                checkoutLocation := some ⟨lat, lng⟩
                checkoutDistance := some checkoutDistance
                checkoutStatus := some WStatus.pending
                totalHours := some totalHours
                checkoutPhoto := photo }
              .ok (updateAttendance db updated,
                   { attendanceId := today.id
                     checkoutTime := now
                     checkoutDistance := checkoutDistance
                     checkoutStatus := .pending
                     isWithinRange := if checkoutDistance ≤ office.radius then true else false
                     totalHours := totalHours
                     needsReason := if checkoutDistance ≤ office.radius then false else true })

end LedgerOps

/-! ## ApprovalGateway (POST and GET /api/attendance/approve) -/

/-- `action === 'approve' ? 'approved' : 'rejected'`. -/
def statusOfAction : ApprovalAction → WStatus
  | .approve => .approved
  | .reject => .rejected

/-- The response payload of a successful approval. -/
structure ResolveData where
  attendanceId : Nat
  facet : FacetKind
  status : WStatus
  approvedBy : String
  approvedAt : Int

/-- The unconditional checkout-facet update of the approve route: set
`checkoutStatus` from the action and record approver and timestamp. -/
def resolveCheckoutUpdate (db : DB) (att : AttendanceRecord) (actor : User)
    (attendanceId : Nat) (action : ApprovalAction) (now : Int) :
    Except ApiError (DB × ResolveData) :=
  let att' := { att with
    checkoutStatus := some (statusOfAction action)
    checkoutApprovedBy := some actor.id
    checkoutApprovedAt := some now }
  .ok (updateAttendance db att',
       ⟨attendanceId, .checkout, statusOfAction action, actor.fullName, now⟩)

/-- The approve route handler (POST /api/attendance/approve, authenticated
branch). Guards in source order: actor exists, actor role is supervisor or
admin, record exists, jurisdiction (supervisors only: assigned office must
equal the record's office), facet not already resolved; then the facet's
status, approver and timestamp are written. The request body's
`rejectionReason` field is modelled by the `_rejectionReason` parameter:
the handler destructures only `{attendanceId, action, type}` from the body
and never reads, validates, or stores a rejection reason. -/
def resolve (db : DB) (actorId attendanceId : Nat) (action : ApprovalAction)
    (facet : FacetKind) (_rejectionReason : Option String) (now : Int) :
    Except ApiError (DB × ResolveData) :=
  match findUser db actorId with
  | none => .error .userNotFound
  | some actor =>
    if actor.role != .supervisor && actor.role != .admin then .error .forbidden
    else
      match findAttendance db attendanceId with
      | none => .error .attendanceNotFound
      | some att =>
        if actor.role == .supervisor &&
            (match actor.officeId with
             | none => true
             | some oid => oid != att.office) then
          .error .wrongJurisdiction
        else
          match facet with
          | .checkin =>
            if att.checkinStatus != .pending then
              .error (.alreadyResolved .checkin att.checkinStatus)
            else
              let att' := { att with
                checkinStatus := statusOfAction action
                checkinApprovedBy := some actor.id
                checkinApprovedAt := some now }
              .ok (updateAttendance db att',
                   ⟨attendanceId, .checkin, statusOfAction action, actor.fullName, now⟩)
          | .checkout =>
            match att.checkoutStatus with
            | some s =>
              if s != .pending then .error (.alreadyResolved .checkout s)
              else resolveCheckoutUpdate db att actor attendanceId action now
            | none => resolveCheckoutUpdate db att actor attendanceId action now

/-- The current workflow status of the named facet of a record. -/
def facetStatus (r : AttendanceRecord) : FacetKind → Option WStatus
  | .checkin => some r.checkinStatus
  | .checkout => r.checkoutStatus

/-- The pending-records query of the GET handler: either facet pending,
plus the office scope when present. -/
def pendingFilter (officeFilter : Option Nat) (r : AttendanceRecord) : Bool :=
  (r.checkinStatus == .pending || r.checkoutStatus == some .pending) &&
    (match officeFilter with
     | some oid => r.office == oid
     | none => true)

/-- The list-pending handler (GET /api/attendance/approve, authenticated
branch): actor exists and is supervisor or admin; the office scope is added
only when the actor's role is supervisor and an office assignment is
present; results sorted newest check-in first and capped at 100. -/
def listPending (db : DB) (actorId : Nat) : Except ApiError (List AttendanceRecord) :=
  match findUser db actorId with
  | none => .error .userNotFound
  | some actor =>
    if actor.role != .supervisor && actor.role != .admin then .error .forbidden
    else
      let officeFilter : Option Nat :=
        if actor.role == .supervisor then actor.officeId else none
      .ok ((sortByCheckinTimeDesc (db.attendance.filter (pendingFilter officeFilter))).take 100)

/-! ## Concrete fixtures used to instantiate the theorems -/

/-- An active user fixture. -/
def mkUser (id : Nat) (name : String) (role : Role) (officeId : Option Nat) : User :=
  { id := id, fullName := name, role := role, officeId := officeId, isActive := true }

/-- An active office fixture at the origin with radius 50. -/
def mkOffice (id : Nat) (members : List Nat) : Office :=
  { id := id, name := "HQ", location := ⟨0, 0⟩, radius := 50, isActive := true
    members := members }

/-- An attendance record fixture: checked in at time 1000 from 30 m away,
no checkout facet data beyond the given workflow statuses. -/
def baseRecord (id uid oid : Nat) (ciStatus : WStatus) (coStatus : Option WStatus) :
    AttendanceRecord :=
  { id := id, user := uid, office := oid, officerName := "Off", officeName := "HQ"
    location := ⟨0, 0⟩, distance := 30, status := .valid
    checkinStatus := ciStatus, checkinApprovedBy := none, checkinApprovedAt := none
    checkinRejectionReason := none, checkinTime := 1000, checkinPhoto := none
    checkinReason := none, checkinReasonPhoto := none
    checkoutStatus := coStatus, checkoutApprovedBy := none, checkoutApprovedAt := none
    checkoutRejectionReason := none, checkoutTime := none, checkoutLocation := none
    checkoutDistance := none, checkoutPhoto := none, checkoutReason := none
    checkoutReasonPhoto := none, totalHours := none }

/-- A concrete database: a supervisor of office 10, an admin, an officer
assigned to office 10 and member of offices 10 and 20, a supervisor with no
office assignment, a supervisor of office 20, and three attendance records
of the officer at office 10 in various workflow states. -/
def dbFix : DB :=
  { users := [mkUser 1 "Sup" .supervisor (some 10), mkUser 2 "Adm" .admin none,
              mkUser 3 "Officer" .officer (some 10), mkUser 4 "SupFree" .supervisor none,
              mkUser 5 "SupOther" .supervisor (some 20)]
    offices := [mkOffice 10 [3], mkOffice 20 [3]]
    attendance := [baseRecord 100 3 10 .pending none,
                   baseRecord 101 3 10 .approved (some .pending),
                   baseRecord 102 3 10 .approved none]
    nextId := 200 }

lemma haversineA_symm (lat1 lng1 lat2 lng2 : ℝ) :
    haversineA lat1 lng1 lat2 lng2 = haversineA lat2 lng2 lat1 lng1 := by
  unfold haversineA toRadians
  have hlat : (lat1 - lat2) * (Real.pi / 180) / 2 = -((lat2 - lat1) * (Real.pi / 180) / 2) := by
    ring
  have hlng : (lng1 - lng2) * (Real.pi / 180) / 2 = -((lng2 - lng1) * (Real.pi / 180) / 2) := by
    ring
  rw [hlat, hlng, Real.sin_neg, Real.sin_neg]
  ring

/-- If a predicate finds nothing in the first part of an appended list, the
search continues in the second part. -/
lemma find?_append_none {α : Type} (p : α → Bool) (l1 l2 : List α)
    (h : l1.find? p = none) : (l1 ++ l2).find? p = l2.find? p := by
  induction l1 with
  | nil => rfl
  | cons x xs ih =>
    rw [List.cons_append]
    cases hpx : p x with
    | true => simp [List.find?_cons, hpx] at h
    | false =>
      simp only [List.find?_cons, hpx] at h ⊢
      exact ih h

/-- Replacing by id the record that a find-by-id located makes the same
find-by-id return the replacement. -/
lemma find?_map_replace (l : List AttendanceRecord) (aid : Nat)
    (att' : AttendanceRecord) (hid : att'.id = aid) (att : AttendanceRecord)
    (h : l.find? (fun r => r.id == aid) = some att) :
    (l.map (fun r => if r.id == aid then att' else r)).find? (fun r => r.id == aid)
      = some att' := by
  have hatt : att.id = aid := by
    have := List.find?_some h
    simpa using this
  have hfun : ((fun r : AttendanceRecord => r.id == aid) ∘
      (fun r => if r.id == aid then att' else r))
        = (fun r : AttendanceRecord => r.id == aid) := by
    funext r
    by_cases hr : r.id = aid <;> simp [hr, hid]
  rw [List.find?_map, hfun, h]
  simp [hatt]

/-- When all pre-day-window guards of the check-in route pass and a record of
the user already lies in the day window, the route answers
`alreadyCheckedInToday`. -/
lemma checkin_day_guard (db : DB) (uid oid : Nat) (lat lng : ℝ) (photo : Option String)
    (now startOfDay endOfDay : Int) (user : User) (office : Office) (w : Nat)
    (hu : findUser db uid = some user) (hactive : user.isActive = true)
    (hassign : user.officeId = some w) (ho : findOffice db oid = some office)
    (hoact : office.isActive = true) (hmem : office.members.contains uid = true)
    (hex : (existingCheckinToday db uid startOfDay endOfDay).isSome = true) :
    checkIn db uid oid lat lng photo now startOfDay endOfDay
      = .error .alreadyCheckedInToday := by
  obtain ⟨r, hr⟩ := Option.isSome_iff_exists.mp hex
  simp only [checkIn, hu, hactive, hassign, ho, hoact, hmem, hr, Bool.not_true,
    Bool.false_eq_true, if_false]

end VCheck

namespace VCheck

/-- C1: the spec requires `Resolve(..., decision = reject, rejectionReason
absent)` to fail with `MissingReason` and leave the record unchanged. The
approve route has no such check: evaluated on a concrete database at a reject
with no reason on a pending check-in facet, the call succeeds and the stored
record's facet becomes `rejected` with no rejection reason recorded. -/
theorem reject_without_reason_is_accepted :
    (resolve dbFix 1 100 .reject .checkin none 5000).toOption.map
        (fun p => (findAttendance p.1 100).map
          (fun r => (r.checkinStatus, r.checkinRejectionReason)))
      = some (some (WStatus.rejected, none)) := by rfl

/-- C2: the spec requires a successful reject to store the supplied rejection
reason on the record. Evaluated on a concrete database at a reject of a
pending checkout facet with reason "left early": the facet's status, approver
and timestamp are set as claimed, but the stored `checkoutRejectionReason`
remains absent — the route never reads or persists the reason. -/
theorem reject_reason_is_dropped :
    (resolve dbFix 1 101 .reject .checkout (some "left early") 5000).toOption.map
        (fun p => (findAttendance p.1 101).map
          (fun r => (r.checkoutStatus, r.checkoutApprovedBy, r.checkoutApprovedAt,
                     r.checkoutRejectionReason)))
      = some (some (some WStatus.rejected, some 1, some 5000, none)) := by rfl

/-- C3: for every check-in that passes all preconditions, the stored validity
flag is `Valid` exactly when the computed distance is at most the office
radius (so the boundary `distance = radius` yields `Valid`), and the returned
`needsReason` is the negation of that validity. -/
theorem checkin_validity_threshold (db : DB) (uid officeId : Nat) (lat lng : ℝ)
    (photo : Option String) (now startOfDay endOfDay : Int)
    (user : User) (office : Office) (w : Nat)
    (hu : findUser db uid = some user)
    (hactive : user.isActive = true)
    (hassign : user.officeId = some w)
    (ho : findOffice db officeId = some office)
    (hoact : office.isActive = true)
    (hmem : office.members.contains uid = true)
    (hnone : existingCheckinToday db uid startOfDay endOfDay = none) :
    ∃ (db' : DB) (resp : CheckinData) (newRec : AttendanceRecord),
      checkIn db uid officeId lat lng photo now startOfDay endOfDay = .ok (db', resp)
      ∧ db'.attendance = db.attendance ++ [newRec]
      ∧ newRec.checkinStatus = .pending
      ∧ resp.status = newRec.status
      ∧ (newRec.status = .valid ↔
          calculateDistance lat lng office.location.lat office.location.lng ≤ office.radius)
      ∧ (calculateDistance lat lng office.location.lat office.location.lng = office.radius →
          newRec.status = .valid)
      ∧ (resp.needsReason = true ↔ ¬ newRec.status = .valid) := by
  simp only [checkIn, hu, hactive, hassign, ho, hoact, hmem, hnone, Bool.not_true,
    Bool.false_eq_true, if_false]
  by_cases hd : calculateDistance lat lng office.location.lat office.location.lng ≤ office.radius
  · simp only [if_pos hd]
    exact ⟨_, _, _, rfl, rfl, rfl, rfl, by simp [hd], fun _ => rfl, by simp⟩
  · simp only [if_neg hd]
    refine ⟨_, _, _, rfl, rfl, rfl, rfl, ?_, ?_, by simp⟩
    · simp [hd]
    · intro he
      exact absurd (le_of_eq he) hd

/-- Witness for C3 at a concrete database and input. -/
theorem checkin_validity_threshold_witness :
    ∃ (db' : DB) (resp : CheckinData) (newRec : AttendanceRecord),
      checkIn dbFix 3 10 0 0 none 2500000 2000000 3000000 = .ok (db', resp)
      ∧ db'.attendance = dbFix.attendance ++ [newRec]
      ∧ newRec.checkinStatus = .pending
      ∧ resp.status = newRec.status
      ∧ (newRec.status = .valid ↔ calculateDistance 0 0 0 0 ≤ 50)
      ∧ (calculateDistance 0 0 0 0 = 50 → newRec.status = .valid)
      ∧ (resp.needsReason = true ↔ ¬ newRec.status = .valid) :=
  checkin_validity_threshold dbFix 3 10 0 0 none 2500000 2000000 3000000
    (mkUser 3 "Officer" .officer (some 10)) (mkOffice 10 [3]) 10
    rfl rfl rfl rfl rfl rfl rfl

/-- C4: once a check-in of a user exists in the local day window, a second
check-in by the same user in the same window fails with
`alreadyCheckedInToday` — regardless of which office either call targets —
and, being an error, writes nothing. -/
theorem checkin_once_per_day (db : DB) (uid oid1 oid2 : Nat) (lat1 lng1 lat2 lng2 : ℝ)
    (photo1 photo2 : Option String) (now1 now2 startOfDay endOfDay : Int)
    (user : User) (office1 office2 : Office) (w : Nat)
    (hu : findUser db uid = some user)
    (hactive : user.isActive = true)
    (hassign : user.officeId = some w)
    (ho1 : findOffice db oid1 = some office1)
    (hoact1 : office1.isActive = true)
    (hmem1 : office1.members.contains uid = true)
    (hnone : existingCheckinToday db uid startOfDay endOfDay = none)
    (hwin1 : startOfDay ≤ now1) (hwin2 : now1 ≤ endOfDay)
    (ho2 : findOffice db oid2 = some office2)
    (hoact2 : office2.isActive = true)
    (hmem2 : office2.members.contains uid = true) :
    ∃ (db1 : DB) (resp1 : CheckinData),
      checkIn db uid oid1 lat1 lng1 photo1 now1 startOfDay endOfDay = .ok (db1, resp1)
      ∧ checkIn db1 uid oid2 lat2 lng2 photo2 now2 startOfDay endOfDay
          = .error .alreadyCheckedInToday := by
  simp only [checkIn, hu, hactive, hassign, ho1, hoact1, hmem1, hnone, Bool.not_true,
    Bool.false_eq_true, if_false]
  refine ⟨_, _, rfl, ?_⟩
  refine checkin_day_guard _ uid oid2 lat2 lng2 photo2 now2 startOfDay endOfDay
    user office2 w hu hactive hassign ho2 hoact2 hmem2 ?_
  show (List.find? _ (db.attendance ++ _)).isSome = true
  rw [find?_append_none _ db.attendance _ hnone]
  rw [List.find?_cons_of_pos _ (by simp [hwin1, hwin2])]
  rfl

/-- Witness for C4: the second check-in targets a different office (20)
than the first (10) and still fails with `alreadyCheckedInToday`. -/
theorem checkin_once_per_day_witness :
    ∃ (db1 : DB) (resp1 : CheckinData),
      checkIn dbFix 3 10 0 0 none 2500000 2000000 3000000 = .ok (db1, resp1)
      ∧ checkIn db1 3 20 0 0 none 2600000 2000000 3000000
          = .error .alreadyCheckedInToday :=
  checkin_once_per_day dbFix 3 10 20 0 0 0 0 none none 2500000 2600000 2000000 3000000
    (mkUser 3 "Officer" .officer (some 10)) (mkOffice 10 [3]) (mkOffice 20 [3]) 10
    rfl rfl rfl rfl rfl rfl rfl (by decide) (by decide) rfl rfl rfl

/-- C5: resolving a facet whose workflow status is no longer `pending` fails
with `alreadyResolved` carrying that current status — for either facet and
either decision — and the error message contains the status text; the error
return performs no write. -/
theorem resolve_already_resolved (db : DB) (actorId attId : Nat)
    (action : ApprovalAction) (facet : FacetKind) (reason : Option String) (now : Int)
    (actor : User) (att : AttendanceRecord) (s : WStatus)
    (hu : findUser db actorId = some actor)
    (hrole : actor.role = .supervisor ∨ actor.role = .admin)
    (ha : findAttendance db attId = some att)
    (hjur : actor.role = .supervisor → actor.officeId = some att.office)
    (hs : facetStatus att facet = some s)
    (hterm : s ≠ .pending) :
    resolve db actorId attId action facet reason now
        = .error (.alreadyResolved facet s)
      ∧ ∃ pre, (ApiError.alreadyResolved facet s).message = pre ++ statusText s := by
  have hne : (actor.role != .supervisor && actor.role != .admin) = false := by
    rcases hrole with h | h <;> simp [h]
  have hjurF : (actor.role == .supervisor &&
      (match actor.officeId with
       | none => true
       | some oid => oid != att.office)) = false := by
    rcases hrole with h | h
    · simp [h, hjur h]
    · simp [h]
  refine ⟨?_, ?_⟩
  · cases facet with
    | checkin =>
      simp only [facetStatus, Option.some.injEq] at hs
      subst hs
      simp [resolve, hu, ha, hne, hjurF, hterm]
    | checkout =>
      simp only [facetStatus] at hs
      simp [resolve, hu, ha, hne, hjurF, hs, hterm]
  · cases facet with
    | checkin => exact ⟨"Check-in already ", rfl⟩
    | checkout => exact ⟨"Check-out already ", rfl⟩

/-- Witness for C5: re-approving an already-approved check-in facet. -/
theorem resolve_already_resolved_witness :
    resolve dbFix 1 101 .approve .checkin none 7
        = .error (.alreadyResolved .checkin .approved)
      ∧ ∃ pre, (ApiError.alreadyResolved .checkin .approved).message
          = pre ++ statusText .approved :=
  resolve_already_resolved dbFix 1 101 .approve .checkin none 7
    (mkUser 1 "Sup" .supervisor (some 10)) (baseRecord 101 3 10 .approved (some .pending))
    .approved rfl (Or.inl rfl) rfl (fun _ => rfl) rfl (by decide)

/-- C7: a supervisor whose assigned office differs from the record's office
gets `wrongJurisdiction` for any facet and decision, while a resolve by an
admin can never produce `wrongJurisdiction`. -/
theorem resolve_jurisdiction_scope :
    (∀ (db : DB) (actorId attId : Nat) (action : ApprovalAction) (facet : FacetKind)
       (reason : Option String) (now : Int) (actor : User) (oid : Nat)
       (att : AttendanceRecord),
      findUser db actorId = some actor → actor.role = .supervisor →
      actor.officeId = some oid → findAttendance db attId = some att →
      oid ≠ att.office →
      resolve db actorId attId action facet reason now = .error .wrongJurisdiction)
    ∧ (∀ (db : DB) (actorId attId : Nat) (action : ApprovalAction) (facet : FacetKind)
         (reason : Option String) (now : Int) (actor : User),
      findUser db actorId = some actor → actor.role = .admin →
      resolve db actorId attId action facet reason now ≠ .error .wrongJurisdiction) := by
  constructor
  · intro db actorId attId action facet reason now actor oid att hu hrole hoid ha hne
    simp [resolve, hu, hrole, hoid, ha, hne]
  · intro db actorId attId action facet reason now actor hu hrole
    simp only [resolve, hu, hrole]
    cases findAttendance db attId with
    | none => simp
    | some att =>
      simp only []
      cases facet with
      | checkin =>
        by_cases hp : att.checkinStatus = .pending <;>
          simp [hp, resolveCheckoutUpdate]
      | checkout =>
        cases hco : att.checkoutStatus with
        | none => simp [resolveCheckoutUpdate]
        | some s =>
          by_cases hp : s = .pending <;> simp [hp, resolveCheckoutUpdate]

/-- Witness for C7: supervisor 5 of office 20 cannot resolve a record of
office 10; admin 2 never receives `wrongJurisdiction`. -/
theorem resolve_jurisdiction_scope_witness :
    resolve dbFix 5 100 .approve .checkin none 7 = .error .wrongJurisdiction
    ∧ resolve dbFix 2 100 .approve .checkin none 7 ≠ .error .wrongJurisdiction :=
  ⟨resolve_jurisdiction_scope.1 dbFix 5 100 .approve .checkin none 7
      (mkUser 5 "SupOther" .supervisor (some 20)) 20 (baseRecord 100 3 10 .pending none)
      rfl rfl rfl rfl (by decide),
   resolve_jurisdiction_scope.2 dbFix 2 100 .approve .checkin none 7
      (mkUser 2 "Adm" .admin none) rfl rfl⟩

/-- C8: when a record has no checkout facet yet (`checkoutStatus` absent), an
authorized resolve of the checkout facet does not fail with
`alreadyResolved`: it succeeds and writes the decided status, the approver
and the resolution timestamp onto the record. -/
theorem resolve_checkout_facet_absent (db : DB) (actorId attId : Nat)
    (action : ApprovalAction) (reason : Option String) (now : Int)
    (actor : User) (att : AttendanceRecord)
    (hu : findUser db actorId = some actor)
    (hrole : actor.role = .supervisor ∨ actor.role = .admin)
    (ha : findAttendance db attId = some att)
    (hjur : actor.role = .supervisor → actor.officeId = some att.office)
    (hnone : att.checkoutStatus = none) :
    ∃ att' : AttendanceRecord,
      att' = { att with
        checkoutStatus := some (statusOfAction action)
        checkoutApprovedBy := some actor.id
        checkoutApprovedAt := some now }
      ∧ resolve db actorId attId action .checkout reason now
          = .ok (updateAttendance db att',
                 ⟨attId, .checkout, statusOfAction action, actor.fullName, now⟩)
      ∧ findAttendance (updateAttendance db att') attId = some att' := by
  have hne : (actor.role != .supervisor && actor.role != .admin) = false := by
    rcases hrole with h | h <;> simp [h]
  have hjurF : (actor.role == .supervisor &&
      (match actor.officeId with
       | none => true
       | some oid => oid != att.office)) = false := by
    rcases hrole with h | h
    · simp [h, hjur h]
    · simp [h]
  refine ⟨{ att with
    checkoutStatus := some (statusOfAction action)
    checkoutApprovedBy := some actor.id
    checkoutApprovedAt := some now }, rfl, ?_, ?_⟩
  · simp [resolve, hu, ha, hne, hjurF, hnone, resolveCheckoutUpdate]
  · have hid : att.id = attId := by
      have := List.find?_some ha
      simpa using this
    subst hid
    exact find?_map_replace db.attendance att.id
      { att with
        checkoutStatus := some (statusOfAction action)
        checkoutApprovedBy := some actor.id
        checkoutApprovedAt := some now } rfl att ha

/-- Witness for C8: approving the missing checkout facet of record 102. -/
theorem resolve_checkout_facet_absent_witness :
    ∃ att' : AttendanceRecord,
      att' = { baseRecord 102 3 10 .approved none with
        checkoutStatus := some .approved
        checkoutApprovedBy := some 1
        checkoutApprovedAt := some 7 }
      ∧ resolve dbFix 1 102 .approve .checkout none 7
          = .ok (updateAttendance dbFix att', ⟨102, .checkout, .approved, "Sup", 7⟩)
      ∧ findAttendance (updateAttendance dbFix att') 102 = some att' :=
  resolve_checkout_facet_absent dbFix 1 102 .approve none 7
    (mkUser 1 "Sup" .supervisor (some 10)) (baseRecord 102 3 10 .approved none)
    rfl (Or.inl rfl) rfl (fun _ => rfl) rfl

/-- C9: a supervisor with no office assignment gets the unscoped pending
query — the pending records of all offices — exactly the result an admin
gets on the same database. -/
theorem listPending_supervisor_no_office (db : DB) (sid aid : Nat)
    (sup adm : User)
    (hs : findUser db sid = some sup) (hsr : sup.role = .supervisor)
    (hso : sup.officeId = none)
    (ha : findUser db aid = some adm) (har : adm.role = .admin) :
    listPending db sid
        = .ok ((sortByCheckinTimeDesc (db.attendance.filter (pendingFilter none))).take 100)
      ∧ listPending db sid = listPending db aid := by
  constructor
  · simp [listPending, hs, hsr, hso]
  · simp [listPending, hs, ha, hsr, har, hso]

/-- Witness for C9: supervisor 4 (no office) and admin 2 on the concrete
database. -/
theorem listPending_supervisor_no_office_witness :
    listPending dbFix 4
        = .ok ((sortByCheckinTimeDesc (dbFix.attendance.filter (pendingFilter none))).take 100)
      ∧ listPending dbFix 4 = listPending dbFix 2 :=
  listPending_supervisor_no_office dbFix 4 2 (mkUser 4 "SupFree" .supervisor none)
    (mkUser 2 "Adm" .admin none) rfl rfl rfl rfl rfl

/-- C6: a successful checkout stores and returns
`totalHours = round(((checkoutTime - checkinTime) / 3600000) * 100) / 100`
and sets the checkout status to `pending`; in particular a checkout exactly
2 h 30 min (9000000 ms) after check-in yields totalHours = 2.5. -/
theorem checkout_total_hours (db : DB) (uid officeId : Nat) (lat lng : ℝ)
    (photo : Option String) (now startOfDay endOfDay : Int)
    (user : User) (office : Office) (today : AttendanceRecord)
    (hu : findUser db uid = some user)
    (hactive : user.isActive = true)
    (ho : findOffice db officeId = some office)
    (hoact : office.isActive = true)
    (htoday : findTodayAttendance db uid office.id startOfDay endOfDay = some today)
    (hnoout : today.checkoutTime = none) :
    ∃ (db' : DB) (resp : CheckoutData),
      checkOut db uid officeId lat lng photo now startOfDay endOfDay = .ok (db', resp)
      ∧ resp.totalHours = totalHoursOf today.checkinTime now
      ∧ resp.checkoutStatus = .pending
      ∧ db' = updateAttendance db { today with
          checkoutTime := some now
          checkoutLocation := some ⟨lat, lng⟩
          checkoutDistance :=
            some (calculateDistance lat lng office.location.lat office.location.lng)
          checkoutStatus := some WStatus.pending
          totalHours := some (totalHoursOf today.checkinTime now)
          checkoutPhoto := photo }
      ∧ (now = today.checkinTime + 9000000 → resp.totalHours = 5 / 2) := by
  simp only [checkOut, hu, hactive, ho, hoact, htoday, hnoout, Bool.not_true,
    Bool.false_eq_true, if_false]
  refine ⟨_, _, rfl, rfl, rfl, rfl, ?_⟩
  intro hnow
  subst hnow
  show totalHoursOf today.checkinTime (today.checkinTime + 9000000) = 5 / 2
  unfold totalHoursOf
  have h : ((today.checkinTime + 9000000 - today.checkinTime : Int) : ℚ) = 9000000 := by
    push_cast
    ring
  rw [h]
  norm_num

/-- Witness for C6 at a concrete database and checkout time. -/
theorem checkout_total_hours_witness :
    ∃ (db' : DB) (resp : CheckoutData),
      checkOut dbFix 3 10 0 0 none 5000 0 86399999 = .ok (db', resp)
      ∧ resp.totalHours = totalHoursOf 1000 5000
      ∧ resp.checkoutStatus = .pending
      ∧ db' = updateAttendance dbFix { baseRecord 102 3 10 .approved none with
          checkoutTime := some 5000
          checkoutLocation := some ⟨0, 0⟩
          checkoutDistance := some (calculateDistance 0 0 0 0)
          checkoutStatus := some WStatus.pending
          totalHours := some (totalHoursOf 1000 5000)
          checkoutPhoto := none }
      ∧ ((5000 : Int) = 1000 + 9000000 → resp.totalHours = 5 / 2) :=
  checkout_total_hours dbFix 3 10 0 0 none 5000 0 86399999
    (mkUser 3 "Officer" .officer (some 10)) (mkOffice 10 [3])
    (baseRecord 102 3 10 .approved none) rfl rfl rfl rfl rfl rfl

/-- C10: the distance function is symmetric in its two coordinate arguments.
Stated for all real inputs, which in particular covers the valid coordinate
ranges. -/
theorem calculateDistance_symm (lat1 lng1 lat2 lng2 : ℝ) :
    calculateDistance lat1 lng1 lat2 lng2 = calculateDistance lat2 lng2 lat1 lng1 := by
  unfold calculateDistance
  rw [haversineA_symm]

end VCheck
